import Mathlib

/-!
Verification of the ai-office backend's generate-validate-execute pipeline.

The Python sources under `backend/app` are shallowly embedded below:
pure functions become Lean functions, the orchestrator coroutines become
trace generators over an explicit environment of external outcomes, and
the persisted job row becomes a record folded over the emitted updates.
Machine floats (progress fractions, sizes) are modelled as `ℚ`; Python
strings are modelled as `String` (or `List Char` where character-level
regex reasoning is needed).
-/

set_option autoImplicit false

namespace AiOffice

/-- Decidable equality of `Except` results (not provided by the library). -/
instance {ε α : Type} [DecidableEq ε] [DecidableEq α] : DecidableEq (Except ε α) := fun a b =>
  match a, b with
  | .ok x, .ok y =>
      if h : x = y then .isTrue (by rw [h]) else .isFalse (fun hh => by cases hh; exact h rfl)
  | .error x, .error y =>
      if h : x = y then .isTrue (by rw [h]) else .isFalse (fun hh => by cases hh; exact h rfl)
  | .ok _, .error _ => .isFalse (fun hh => by cases hh)
  | .error _, .ok _ => .isFalse (fun hh => by cases hh)

/-! ### `app/sandbox/validator.py`

`validate_generated_code` parses the candidate with `ast.parse` and walks
the tree with `ast.walk` (breadth-first), raising `SandboxValidationError`
at the first violating node and finally when the required function was
never seen.  We embed the candidate as an already-parsed tree (`ast.parse`
itself is not re-modelled; a syntactically invalid candidate is outside
this embedding) and reproduce the walk, the rule checks and the error
strings.  `alias` / `arguments` helper nodes, which match none of the
`isinstance` branches and have no checked children, are folded away. -/

/-- Python AST fragment actually inspected by the validator. -/
inductive PyNode where
  /-- `ast.Import` with its alias names (`import a, b.c`). -/
  | importName (names : List String)
  /-- `ast.ImportFrom` (`from m import x`); `none` models a relative `from . import x`. -/
  | importFrom (module : Option String)
  /-- `ast.FunctionDef` with its body. -/
  | functionDef (name : String) (body : List PyNode)
  /-- `ast.ClassDef` with its body. -/
  | classDef (name : String) (body : List PyNode)
  /-- `ast.Name` in expression position. -/
  | exprName (id : String)
  /-- `ast.Attribute`: `value.attr`. -/
  | attrAccess (value : PyNode) (attr : String)
  /-- `ast.Call`: `func(args)`. -/
  | callExpr (func : PyNode) (args : List PyNode)
  /-- `ast.Expr` statement wrapping an expression. -/
  | exprStmt (value : PyNode)
  /-- any literal constant. -/
  | constant
  deriving Repr

/-- `_ALLOWED_IMPORTS` from `validator.py`. -/
def allowedImports : List String :=
  ["pandas", "numpy", "openpyxl", "matplotlib", "math", "re", "datetime",
   "typing", "collections"]

/-- `_BANNED_NAMES` from `validator.py`. -/
def bannedNames : List String :=
  ["eval", "exec", "__import__", "compile", "open", "input", "globals", "locals"]

/-- The module denylist checked on attribute access. -/
def dangerModules : List String := ["os", "sys", "subprocess", "socket"]

/-- Child nodes in `ast.iter_child_nodes` order (only checked node kinds kept). -/
def astChildren : PyNode → List PyNode
  | .importName _ => []
  | .importFrom _ => []
  | .functionDef _ body => body
  | .classDef _ body => body
  | .exprName _ => []
  | .attrAccess value _ => [value]
  | .callExpr func args => func :: args
  | .exprStmt value => [value]
  | .constant => []

mutual

/-- Number of AST nodes in a node's subtree (the node itself included). -/
def nodeSize : PyNode → Nat
  | .importName _ => 1
  | .importFrom _ => 1
  | .functionDef _ body => 1 + nodesSize body
  | .classDef _ body => 1 + nodesSize body
  | .exprName _ => 1
  | .attrAccess value _ => 1 + nodeSize value
  | .callExpr func args => 1 + nodeSize func + nodesSize args
  | .exprStmt value => 1 + nodeSize value
  | .constant => 1

/-- Total subtree size of a list of nodes. -/
def nodesSize : List PyNode → Nat
  | [] => 0
  | n :: rest => nodeSize n + nodesSize rest

end

/-- One BFS dequeue step per unit of fuel; `walkFrom` always supplies
enough fuel, so the fuel-exhausted branch is never taken from there. -/
def walkAux : Nat → List PyNode → List PyNode
  | _, [] => []
  | 0, _ :: _ => []
  | fuel + 1, n :: rest => n :: walkAux fuel (rest ++ astChildren n)

/-- `ast.walk`: breadth-first traversal by a FIFO queue seeded with the
module body (the `Module` root node itself matches no `isinstance` branch
and is dropped).  Each dequeued node is emitted and its children are
appended to the queue; the total subtree size of the queue bounds the
number of steps, so it is used as fuel. -/
def walkFrom (queue : List PyNode) : List PyNode :=
  walkAux (nodesSize queue) queue

theorem nodesSize_append (l₁ l₂ : List PyNode) :
    nodesSize (l₁ ++ l₂) = nodesSize l₁ + nodesSize l₂ := by
  induction l₁ with
  | nil => simp [nodesSize]
  | cons a l ih => simp [nodesSize, ih]; omega

theorem nodesSize_children_lt (n : PyNode) : nodesSize (astChildren n) < nodeSize n := by
  cases n <;> simp [astChildren, nodeSize, nodesSize]

/-- The walk does not depend on the exact fuel, as long as it suffices. -/
theorem walkAux_fuel_irrel (f₁ f₂ : Nat) (q : List PyNode)
    (h₁ : nodesSize q ≤ f₁) (h₂ : nodesSize q ≤ f₂) :
    walkAux f₁ q = walkAux f₂ q := by
  induction f₁ using Nat.strong_induction_on generalizing f₂ q with
  | _ f₁ ih =>
    match q, f₁, f₂ with
    | [], _, _ => simp [walkAux]
    | n :: rest, 0, _ =>
        exfalso
        have := nodesSize_children_lt n
        simp [nodesSize] at h₁
        omega
    | n :: rest, f + 1, 0 =>
        exfalso
        have := nodesSize_children_lt n
        simp [nodesSize] at h₂
        omega
    | n :: rest, f + 1, g + 1 =>
        simp only [walkAux]
        congr 1
        have hc := nodesSize_children_lt n
        have hs : nodesSize (rest ++ astChildren n) = nodesSize rest + nodesSize (astChildren n) :=
          nodesSize_append _ _
        have hq : nodesSize (n :: rest) = nodeSize n + nodesSize rest := rfl
        exact ih f (by omega) g (rest ++ astChildren n) (by omega) (by omega)

theorem walkFrom_nil : walkFrom [] = [] := rfl

/-- The characteristic BFS unfolding of `ast.walk`: emit the head of the
queue, then continue with its children enqueued at the back. -/
theorem walkFrom_cons (n : PyNode) (rest : List PyNode) :
    walkFrom (n :: rest) = n :: walkFrom (rest ++ astChildren n) := by
  have hc := nodesSize_children_lt n
  have hs := nodesSize_append rest (astChildren n)
  have hq : nodesSize (n :: rest) = nodeSize n + nodesSize rest := rfl
  show walkAux (nodesSize (n :: rest)) (n :: rest) = _
  rw [hq]
  have hsplit : nodeSize n + nodesSize rest = (nodeSize n - 1 + nodesSize rest) + 1 := by omega
  rw [hsplit]
  simp only [walkAux]
  congr 1
  exact walkAux_fuel_irrel _ _ _ (by omega) (by omega)

/-- First path component of a dotted module name (`name.split(".")[0]`). -/
def topModule (s : String) : String := String.mk (s.toList.takeWhile (fun c => c != '.'))

/-- The per-node rule checks of the validator's walk loop, returning the
`SandboxValidationError` message for the first violated rule of the node
(`none` when the node passes). -/
def checkNode : PyNode → Option String
  | .importName names =>
      names.findSome? fun nm =>
        if topModule nm ∈ allowedImports then none
        else some ("Disallowed import: " ++ nm)
  | .importFrom module =>
      let mod := topModule (module.getD "")
      if mod ≠ "" ∧ mod ∉ allowedImports then some ("Disallowed import: " ++ module.getD "")
      else none
  | .callExpr (.exprName id) _ =>
      if id ∈ bannedNames then some ("Disallowed builtin call: " ++ id ++ "()")
      else none
  | .attrAccess (.exprName id) attr =>
      if id ∈ dangerModules then some ("Disallowed module usage: " ++ id ++ "." ++ attr)
      else none
  | _ => none

/-- Does this node set `has_required`? -/
def isRequiredDef (required : String) : PyNode → Bool
  | .functionDef name _ => name = required
  | _ => false

/-- `validate_generated_code(code, required_function=...)`: error is the
message of the first violating node in walk order; with no violation the
candidate passes iff some walked node defines the required function. -/
def validate_generated_code (tree : List PyNode) (required_function : String) :
    Except String Unit :=
  match (walkFrom tree).findSome? checkNode with
  | some e => .error e
  | none =>
      if (walkFrom tree).any (isRequiredDef required_function) then .ok ()
      else .error ("Missing required function: " ++ required_function ++ "()")

example :
    validate_generated_code [.importName ["os"], .functionDef "transform" []] "transform"
      = .error "Disallowed import: os" := rfl

example :
    validate_generated_code [.importName ["pandas"], .functionDef "transform" []] "transform"
      = .ok () := rfl

example :
    validate_generated_code [.functionDef "helper" []] "transform"
      = .error "Missing required function: transform()" := rfl

example :
    validate_generated_code [.functionDef "outer" [.functionDef "transform" []]] "transform"
      = .ok () := rfl

/-! ### `app/store/analytics_jobs_db.py`

The persisted job row and its update function.  `update_excel_job` in
`app/store/excel_jobs_db.py` is line-for-line identical, so the same
definitions model both stores; the summary payload (which Python stores as
a JSON dump of an arbitrary dict) is kept as a typed value `σ`, with
`json.dumps`/`json.loads` modelled as the identity.  Python `datetime`
values are opaque here and modelled as `Nat`.  Python slices strings by
characters, hence the `List Char` round-trip in `strTakeRight`. -/

/-- Last `n` characters of a string (`s[-n:]` for `len(s) > n`). -/
def strTakeRight (s : String) (n : Nat) : String :=
  String.mk (s.toList.drop (s.toList.length - n))

/-- Python `s[:n]` (characters, not bytes). -/
def strTake (s : String) (n : Nat) : String := String.mk (s.toList.take n)

/-- One row of the `analytics_jobs` (resp. `excel_jobs`) table. -/
structure JobRecord (σ : Type) where
  status : String
  created_at : Nat
  started_at : Option Nat
  finished_at : Option Nat
  input_filename : String
  prompt : String
  llm_model : Option String
  summary_json : Option σ
  error : Option String
  stage : String
  progress : ℚ
  detail : Option String
  work_dir : String

/-- The keyword arguments of one `update_analytics_job` call; `none` is
Python `None`, i.e. "leave the field alone". -/
structure JobUpdate (σ : Type) where
  status : Option String := none
  started_at : Option Nat := none
  finished_at : Option Nat := none
  llm_model : Option String := none
  summary : Option σ := none
  error : Option String := none
  stage : Option String := none
  progress : Option ℚ := none
  detail : Option String := none

/-- `create_analytics_job` (row as first inserted; `job_id` is identity and
not carried). -/
def create_analytics_job {σ : Type} (status input_filename prompt work_dir : String) :
    JobRecord σ :=
  { status := status, created_at := 0, started_at := none, finished_at := none,
    input_filename := input_filename, prompt := prompt, llm_model := none,
    summary_json := none, error := none, stage := "queued", progress := 0,
    detail := none, work_dir := work_dir }

/-- `update_analytics_job`: every `None` keyword keeps the stored value;
a non-`None` detail longer than 8000 characters is truncated to its last
8000 characters before being stored. -/
def update_analytics_job {σ : Type} (job : JobRecord σ) (u : JobUpdate σ) : JobRecord σ :=
  { job with
    status := match u.status with | some s => s | none => job.status
    started_at := match u.started_at with | some t => some t | none => job.started_at
    finished_at := match u.finished_at with | some t => some t | none => job.finished_at
    llm_model := match u.llm_model with | some m => some m | none => job.llm_model
    summary_json := match u.summary with | some s => some s | none => job.summary_json
    error := match u.error with | some e => some e | none => job.error
    stage := match u.stage with | some s => s | none => job.stage
    progress := match u.progress with | some p => p | none => job.progress
    detail := match u.detail with
      | some d => some (if d.length > 8000 then strTakeRight d 8000 else d)
      | none => job.detail }

/-- Folding a whole run's update calls over a row. -/
def applyUpdates {σ : Type} (job : JobRecord σ) (us : List (JobUpdate σ)) : JobRecord σ :=
  us.foldl update_analytics_job job

/-! ### `app/sandbox/subprocess_runner.py` and `app/sandbox/analytics_runner.py`

The two child-process entry points are identical except for the entry
function name (`transform` / `analyze`) and for `analytics_runner` also
creating `output_dir`; neither difference affects the exit-code or
result-artifact contract, so one definition models both `main`s.  The
environment records the outcomes of the effectful steps: the command-line
arguments, whether `runpy.run_path` raised, whether the loaded namespace
has a callable entry, and what calling the entry did.  An exception that
escapes `main` (from `run_path` or from the generated entry function)
makes the interpreter exit with code 1. -/

/-- JSON-serializable Python value as returned by the generated entry
function (after `_json_default` coercion, which this model does not need
to re-run: only mapping-ness is inspected by `main`). -/
inductive PyValue where
  | dict (entries : List (String × PyValue))
  | str (s : String)
  | num (q : ℚ)
  | listV (items : List PyValue)
  | noneV

/-- `isinstance(summary, dict)`. -/
def PyValue.isDict : PyValue → Bool
  | .dict _ => true
  | _ => false

/-- One `summary_path.write_text(json.dumps(..., ensure_ascii=False,
indent=2, default=_json_default), encoding="utf-8")` call. -/
structure WriteEvent where
  content : PyValue
  encoding : String
  indent : Nat

/-- External outcomes of one child-process run. -/
structure RunnerEnv where
  /-- `sys.argv[1:]`, i.e. the positional parameters. -/
  args : List String
  /-- `runpy.run_path` completed without raising. -/
  moduleOk : Bool
  /-- `callable(namespace.get(entry))`. -/
  entryCallable : Bool
  /-- outcome of calling the entry function. -/
  entryResult : Except String PyValue

/-- `summary if isinstance(summary, dict) else {"summary": summary}`. -/
def wrapSummary (v : PyValue) : PyValue :=
  if v.isDict then v else .dict [("summary", v)]

/-- `main()` of either sandbox runner: final process exit code paired with
the writes performed on the result-artifact path. -/
def sandbox_runner_main (env : RunnerEnv) : Nat × List WriteEvent :=
  if env.args.length + 1 ≠ 6 then (2, [])
  else if ¬ env.moduleOk then (1, [])
  else if ¬ env.entryCallable then (3, [])
  else match env.entryResult with
    | .error _ => (1, [])
    | .ok v => (0, [⟨wrapSummary v, "utf-8", 2⟩])

example :
    sandbox_runner_main ⟨["c", "i", "o", "s", "9"], true, true, .ok (.num 7)⟩
      = (0, [⟨.dict [("summary", .num 7)], "utf-8", 2⟩]) := rfl

example :
    sandbox_runner_main ⟨["c", "i"], true, true, .ok (.num 7)⟩ = (2, []) := rfl

/-! ### `app/services/analytics_codegen.py` / `app/services/excel_codegen.py`:
response extraction

Model reply texts are embedded as `List Char` so the fence-matching
regexes can be modelled character by character.  The fence patterns are
written in the source as raw strings containing `\\s*`, which in regex
syntax is an escaped backslash followed by `s*`: one **mandatory literal
backslash**, then zero or more `s` characters (the star binds to `s`
alone, not to the pair).  The models below demand that literal backslash
exactly like the compiled patterns do — so on an ordinary fenced reply,
which contains no backslash at those positions, every fence pattern fails
and `_extract_python_code` reaches its raw-content fallback.
`re.search` semantics: leftmost starting position wins; the lazy group
`(.*?)` takes the shortest content after which the continuation — one
literal backslash, a greedy `s` run, a closing ``` fence — matches.
Python's `str.splitlines` is modelled for `"\n"`-separated text (the
model-reply texts handled here). -/

/-- Character-level text. -/
abbrev Chars := List Char

/-- The backtick character (U+0060). -/
def tickChar : Char := '\x60'

/-- Python `str.strip` / `str.lstrip` whitespace. -/
def pyWhitespace (c : Char) : Bool :=
  c == ' ' || c == '\t' || c == '\n' || c == '\r' || c == '\x0b' || c == '\x0c'

/-- `text.lstrip()`. -/
def lstripChars (l : Chars) : Chars := l.dropWhile pyWhitespace

/-- `text.strip()`. -/
def stripChars (l : Chars) : Chars :=
  ((l.dropWhile pyWhitespace).reverse.dropWhile pyWhitespace).reverse

/-- A ``` fence delimiter. -/
def fenceTicks : Chars := "```".toList

/-- The `python` language tag. -/
def pythonTag : Chars := "python".toList

/-- Case-insensitive prefix test (for `re.IGNORECASE` pieces). -/
def caselessPre : Chars → Chars → Bool
  | [], _ => true
  | _ :: _, [] => false
  | p :: ps, c :: cs => p.toLower == c.toLower && caselessPre ps cs

/-- Does this character match the `s` of a literal `"\s"` under the given
case-insensitivity? -/
def sMatchChar (ci : Bool) (c : Char) : Bool :=
  if ci then c.toLower == 's' else c == 's'

/-- The pattern tail `\\s*```` ``` ` that must follow the lazy group: one
mandatory literal backslash (the `\\` of the raw string), then the greedy
`s*` — which must swallow the entire maximal `s` run, since stopping
short leaves an `s` where a backtick is required — then the closing
``` fence. -/
def bsThenTicks (ci : Bool) : Chars → Bool
  | [] => false
  | a :: rest => a == '\\' && fenceTicks.isPrefixOf (rest.dropWhile (sMatchChar ci))

/-- The leading `\\s*` after the opening fence and tag: one mandatory
literal backslash, then the greedy `s*` run; `none` when the mandatory
backslash is absent, in which case the whole pattern fails at this
starting position. -/
def consumeBS (ci : Bool) : Chars → Option Chars
  | [] => none
  | a :: rest => if a == '\\' then some (rest.dropWhile (sMatchChar ci)) else none

/-- The lazy group `(.*?)`: shortest prefix after which the mandatory
backslash, the greedy `s` run and the closing fence match; `none` when no
such continuation follows anywhere. -/
def findGroup (ci : Bool) : Chars → Option Chars
  | [] => none
  | a :: rest =>
      if bsThenTicks ci (a :: rest) then some []
      else (findGroup ci rest).map (fun g => a :: g)

/-- `_PY_FENCE_RE.search` of `analytics_codegen.py`
(`` ```python\\s*(.*?)\\s*``` ``, `DOTALL | IGNORECASE`): group 1 of the
leftmost match.  After the tag the mandatory literal backslash must
appear, or this starting position fails. -/
def analyticsPyFence : Chars → Option Chars
  | [] => none
  | a :: rest =>
      if fenceTicks.isPrefixOf (a :: rest) && caselessPre pythonTag ((a :: rest).drop 3) then
        match consumeBS true ((a :: rest).drop 9) with
        | some tail =>
            match findGroup true tail with
            | some g => some g
            | none => analyticsPyFence rest
        | none => analyticsPyFence rest
      else analyticsPyFence rest

/-- `[a-zA-Z0-9_-]`, the language-tag characters of `_ANY_FENCE_RE`. -/
def tagChar (c : Char) : Bool := c.isAlpha || c.isDigit || c == '_' || c == '-'

/-- `_ANY_FENCE_RE.search` of `analytics_codegen.py`
(`` ```[a-zA-Z0-9_-]*\\s*(.*?)\\s*``` ``, `DOTALL`).  The greedy tag run
never needs backtracking: stopping it short leaves a tag character where
the mandatory backslash is required. -/
def anyFenceSearch : Chars → Option Chars
  | [] => none
  | a :: rest =>
      if fenceTicks.isPrefixOf (a :: rest) then
        match consumeBS false (((a :: rest).drop 3).dropWhile tagChar) with
        | some tail =>
            match findGroup false tail with
            | some g => some g
            | none => anyFenceSearch rest
        | none => anyFenceSearch rest
      else anyFenceSearch rest

/-- `_PY_FENCE_RE.search` of `excel_codegen.py`
(`` ```(?:python)?\\s*(.*?)\\s*``` ``, `DOTALL`, case-sensitive).  The
optional tag is consumed greedily when present; backtracking to the
untagged alternative can never rescue a failure, since that alternative
demands the literal backslash where the text has the tag's `p`. -/
def excelPyFence : Chars → Option Chars
  | [] => none
  | a :: rest =>
      if fenceTicks.isPrefixOf (a :: rest) then
        let afterTag :=
          if pythonTag.isPrefixOf ((a :: rest).drop 3) then (a :: rest).drop 9
          else (a :: rest).drop 3
        match consumeBS false afterTag with
        | some tail =>
            match findGroup false tail with
            | some g => some g
            | none => excelPyFence rest
        | none => excelPyFence rest
      else excelPyFence rest

/-- Python `pat in text` on character lists. -/
def containsSeq (pat : Chars) : Chars → Bool
  | [] => pat.isPrefixOf ([] : Chars)
  | a :: rest => pat.isPrefixOf (a :: rest) || containsSeq pat rest

/-- Split at every `'\n'` (producing `k+1` segments for `k` newlines). -/
def pySplitAux : Chars → List Chars
  | [] => [[]]
  | c :: rest =>
      if c = '\n' then [] :: pySplitAux rest
      else
        match pySplitAux rest with
        | [] => [[c]]
        | s :: ss => (c :: s) :: ss

/-- `text.splitlines()` for `"\n"`-separated text: a trailing newline does
not produce a final empty segment, and `"".splitlines() == []`. -/
def pySplitlines (l : Chars) : List Chars :=
  if l = [] then []
  else if l.getLast? = some '\n' then (pySplitAux l).dropLast
  else pySplitAux l

/-- `"\n".join(lines)`. -/
def joinNl : List Chars → Chars
  | [] => []
  | [l] => l
  | l :: s :: ss => l ++ '\n' :: joinNl (s :: ss)

/-- `_sanitize_python_code` of `analytics_codegen.py` (pure line surgery,
no regex). -/
def sanitize_python_code (code : Chars) : Chars :=
  let text := stripChars code
  let text1 :=
    if fenceTicks.isPrefixOf text then
      let lines := pySplitlines text
      let lines1 :=
        match lines with
        | [] => []
        | l0 :: rest => if fenceTicks.isPrefixOf (lstripChars l0) then rest else l0 :: rest
      let lines2 :=
        match lines1.getLast? with
        | some lst => if stripChars lst = fenceTicks then lines1.dropLast else lines1
        | none => lines1
      stripChars (joinNl lines2)
    else text
  stripChars text1

/-- `"def analyze"`. -/
def defAnalyze : Chars := "def analyze".toList

/-- `_extract_python_code` of `analytics_codegen.py`: code text plus the
optional notes string, or the `ValueError` message. -/
def extract_python_code (text : Chars) : Except String (Chars × Option String) :=
  let content := stripChars text
  match analyticsPyFence content with
  | some g => .ok (sanitize_python_code g, none)
  | none =>
    match anyFenceSearch content with
    | some g =>
        if containsSeq defAnalyze g then
          .ok (sanitize_python_code g, some "extracted from non-python fence")
        else if containsSeq defAnalyze content then
          .ok (sanitize_python_code content, some "used raw content (non-fenced)")
        else .error "LLM did not return python code with analyze()."
    | none =>
        if containsSeq defAnalyze content then
          .ok (sanitize_python_code content, some "used raw content (non-fenced)")
        else .error "LLM did not return python code with analyze()."

/-- `_sanitize_python_code` of `excel_codegen.py` (regex first, then line
surgery, then a stray leading `python` tag line). -/
def excel_sanitize_python_code (code : Chars) : Chars :=
  let text := stripChars code
  let text1 :=
    if fenceTicks.isPrefixOf text then
      match excelPyFence text with
      | some m => stripChars m
      | none =>
          let lines := pySplitlines text
          let lines1 :=
            match lines with
            | [] => []
            | l0 :: rest => if fenceTicks.isPrefixOf (lstripChars l0) then rest else l0 :: rest
          let lines2 :=
            match lines1.getLast? with
            | some lst => if stripChars lst = fenceTicks then lines1.dropLast else lines1
            | none => lines1
          stripChars (joinNl lines2)
    else text
  let text2 :=
    if caselessPre ("python\n".toList) text1 then lstripChars (text1.drop 7) else text1
  stripChars text2

example :
    extract_python_code ("```python\ndef analyze(a, b):\n    return 0\n```".toList)
      = .ok ("def analyze(a, b):\n    return 0".toList,
          some "used raw content (non-fenced)") := by decide

example :
    excel_sanitize_python_code ("```python\ndef transform(a, b):\n    return 0\n```".toList)
      = "def transform(a, b):\n    return 0".toList := by decide

example :
    extract_python_code ("no code here".toList)
      = .error "LLM did not return python code with analyze()." := by decide

/-! ### `app/services/analytics_metadata.py` / `app/services/excel_metadata.py`

The pandas frames are embedded as grids of cells: `pd.read_csv(path,
nrows=k)` / `pd.read_excel(..., nrows=k)` keep at most `k` data rows, so a
read is `rows.take k` on the raw sheet.  `df.iloc[:, :m]` keeps the first
`m` columns of the header and of every row.  `to_dict(orient="records")`
pairs each row with the (preview) column names.  The pandas-internal
dtype/null-rate/numeric statistics of `_describe_frame` are computed only
over `df_preview` and are opaque aggregates; they are not re-modelled
(the claims quantify the preview shape, the caps and the cell
truncation). -/

/-- One cell; only `str` cells are subject to truncation. -/
inductive CellValue where
  | str (s : String)
  | other

/-- A raw sheet/table of the uploaded file (what pandas would parse). -/
structure RawSheet where
  name : String
  columns : List String
  rows : List (List CellValue)

/-- `pd.read_csv(..., nrows=k)` / `pd.read_excel(..., nrows=k)`. -/
def readSheet (s : RawSheet) (nrows : Nat) : RawSheet :=
  { s with rows := s.rows.take nrows }

/-- Cell-level step of `_truncate_sample_rows`. -/
def truncateCell (max_cell_chars : Nat) : CellValue → CellValue
  | .str s =>
      if s.length > max_cell_chars then .str (strTake s max_cell_chars ++ "...(truncated)")
      else .str s
  | .other => .other

/-- `_truncate_sample_rows(rows, max_cell_chars=...)` on records. -/
def truncate_sample_rows (rows : List (List (String × CellValue))) (max_cell_chars : Nat) :
    List (List (String × CellValue)) :=
  rows.map (fun row => row.map (fun kv => (kv.1, truncateCell max_cell_chars kv.2)))

/-- One entry of `DatasetMetadata.sheets` (`_describe_frame` aggregates
besides `columns` are opaque and omitted, see the section comment). -/
structure SheetMeta where
  name : String
  shape : Nat × Nat
  columns_all : List String
  preview_columns : List String
  truncated_columns : Bool
  sample_rows : List (List (String × CellValue))

/-- The per-sheet body shared by the `.csv` and `.xlsx` branches of
`extract_dataset_metadata`. -/
def describeSheet (sample_rows max_columns max_cell_chars : Nat) (raw : RawSheet) :
    SheetMeta :=
  let df := readSheet raw sample_rows
  let columns_all := df.columns
  let truncated_columns := columns_all.length > max_columns
  let preview_cols := if truncated_columns then df.columns.take max_columns else df.columns
  let preview_rows := if truncated_columns then df.rows.map (·.take max_columns) else df.rows
  { name := raw.name
    shape := (df.rows.length, df.columns.length)
    columns_all := columns_all
    preview_columns := preview_cols
    truncated_columns := truncated_columns
    sample_rows :=
      truncate_sample_rows
        ((preview_rows.take (min sample_rows preview_rows.length)).map
          (fun row => preview_cols.zip row))
        max_cell_chars }

/-- `DatasetMetadata`. -/
structure DatasetMetadata where
  filename : String
  kind : String
  sheets : List SheetMeta

/-- The uploaded file as dispatched on its suffix: `.csv`/`.txt`, a
workbook suffix, or anything else. -/
inductive RawInput where
  | csvFile (filename : String) (table : RawSheet)
  | workbook (filename : String) (sheets : List RawSheet)
  | unsupported (filename : String)

/-- `extract_dataset_metadata(path, sample_rows=20, max_columns=60,
max_cell_chars=120)`; the csv branch names its single table `"data"`, the
workbook branch inspects `sheet_names[:10]`. -/
def extract_dataset_metadata (input : RawInput)
    (sample_rows max_columns max_cell_chars : Nat) : Except String DatasetMetadata :=
  match input with
  | .csvFile filename table =>
      .ok { filename := filename, kind := "csv",
            sheets := [describeSheet sample_rows max_columns max_cell_chars
                        { table with name := "data" }] }
  | .workbook filename sheets =>
      .ok { filename := filename, kind := "xlsx",
            sheets := (sheets.take 10).map
              (describeSheet sample_rows max_columns max_cell_chars) }
  | .unsupported _ =>
      .error "Unsupported file type. Only .csv/.txt/.xlsx supported."

/-- One entry of `WorkbookMetadata.sheets` (dtypes, again opaque pandas
aggregates over the read frame, omitted). -/
structure WorkbookSheetMeta where
  name : String
  columns : List String
  sample_rows : List (List (String × CellValue))

/-- `extract_workbook_metadata(path, sample_rows=8)` of
`excel_metadata.py`: every sheet of the workbook is inspected, reading at
most `max(sample_rows, 1)` rows per sheet; no column cap, no cell
truncation, no `truncated_columns` flag. -/
def extract_workbook_metadata (sheets : List RawSheet) (sample_rows : Nat) :
    List WorkbookSheetMeta :=
  sheets.map fun s =>
    let df := readSheet s (max sample_rows 1)
    { name := df.name
      columns := df.columns
      sample_rows := (df.rows.take sample_rows).map (fun row => df.columns.zip row) }

/-! ### `app/services/analytics_job_runner.py` / `app/services/excel_job_runner.py`

Each orchestrator coroutine is embedded as a trace generator: the
environment fixes the outcome of every effectful step (database row
present, API key configured, metadata extraction, each codegen attempt
with the streamed texts it emitted, the sandbox exit code, artifact
presence, the summarization call), and the function replays the exact
sequence of store updates the Python code would issue, together with the
number of codegen calls, the `asyncio.sleep` back-offs taken, and whether
the sandbox subprocess was launched.  A codegen attempt's `outcome`
covers both the transport call and the in-call response extraction; the
successfully extracted code is carried as its parsed tree (the runner
immediately re-parses it inside `validate_generated_code`).  Python float
literals (`0.01`, `0.35`, `1.5`, …) are the exact rationals below. -/

/-- `message.lower()`. -/
def pyToLower (s : String) : String := String.mk (s.toList.map Char.toLower)

/-- Python `pat in hay` on strings. -/
def strContains (hay pat : String) : Bool := containsSeq pat.toList hay.toList

/-- Python `s.strip()` on strings. -/
def pyStrip (s : String) : String := String.mk (stripChars s.toList)

/-- `"ReadTimeout" in message or "timed out" in message.lower()`: the
runner's timeout classification of a codegen failure. -/
def isTimeoutMsg (m : String) : Bool :=
  strContains m "ReadTimeout" || strContains (pyToLower m) "timed out"

/-- The `RuntimeError` message raised on a non-zero sandbox exit code
(both runners): stripped, 2000-character-truncated captured output. -/
def sandboxFailMsg (exitCode : Int) (stdout stderr : String) : String :=
  "Sandbox execution failed.\n" ++ "exit=" ++ toString exitCode ++ "\n" ++
    "stdout=" ++ strTake (pyStrip stdout) 2000 ++ "\n" ++
    "stderr=" ++ strTake (pyStrip stderr) 2000

/-- `summarize_analytics_result`'s parsed reply. -/
structure LlmSummary where
  text : String
  highlights : List String
  anomalies : List String
  suggestions : List String

/-- The analytics job's final `summary` payload:
`{"analysis": analysis}` plus `"llm"` when summarization succeeded.  The
parsed `summary.json` content is opaque and carried as a string. -/
structure AnalyticsSummary where
  analysis : String
  llm : Option LlmSummary

/-- One codegen attempt: the accumulated texts passed to `on_llm_update`
(each becomes a rate-limited streaming update), then either the extracted
code tree or the exception message. -/
structure AttemptResult where
  streams : List String
  outcome : Except String (List PyNode)

/-- External outcomes of one `run_analytics_job(job_id)` call. -/
structure AnalyticsEnv where
  /-- `db_get_job` found the row. -/
  jobExists : Bool
  /-- `settings.deepseek_api_key` is set. -/
  apiKey : Bool
  /-- `extract_dataset_metadata` outcome (`some msg` = raised). -/
  metadataErr : Option String
  attempt1 : AttemptResult
  attempt2 : AttemptResult
  /-- `settings.deepseek_model` (becomes `codegen.llm_model`). -/
  modelName : String
  /-- `completed.returncode` of the sandbox subprocess. -/
  sandboxExit : Int
  stdout : String
  stderr : String
  /-- `summary_path.exists()`. -/
  summaryExists : Bool
  /-- parsed `summary.json` content. -/
  analysisContent : String
  /-- `some` = summarization reply, `none` = it raised. -/
  summarizeResult : Option LlmSummary

/-- The trace of one orchestrator run. -/
structure RunTrace (σ : Type) where
  updates : List (JobUpdate σ)
  codegenAttempts : Nat
  sleeps : List ℚ
  sandboxRan : Bool

/-- `_update(stage, progress, detail)` of `run_analytics_job`. -/
def stageUpd (st : String) (p : Option ℚ) (d : Option String) : JobUpdate AnalyticsSummary :=
  { stage := some st, progress := p, detail := d }

/-- A streaming `on_llm_update(text)` call:
`_update("generating_code", 0.35, text[-2000:])`. -/
def streamUpd (text : String) : JobUpdate AnalyticsSummary :=
  stageUpd "generating_code" (some (7/20)) (some (strTakeRight text 2000))

/-- The `except` handlers' terminal update (analytics: stage `failed`). -/
def analyticsFail (msg : String) : JobUpdate AnalyticsSummary :=
  { status := some "failed", finished_at := some 1, error := some msg, stage := some "failed" }

/-- The tail of `run_analytics_job` after a codegen attempt produced code:
validation, sandbox, ingestion, best-effort summarization, terminal
update. -/
def analyticsAfterCodegen (env : AnalyticsEnv) (code : List PyNode)
    (pre : List (JobUpdate AnalyticsSummary)) (attempts : Nat) (sleeps : List ℚ) :
    RunTrace AnalyticsSummary :=
  let pre1 := pre ++ [stageUpd "validating_code" (some (11/20)) (some "校验生成代码中…")]
  match validate_generated_code code "analyze" with
  | .error e =>
      ⟨pre1 ++ [{ status := some "failed", finished_at := some 1,
                  error := some ("ValidationError: " ++ e), stage := some "failed" }],
       attempts, sleeps, false⟩
  | .ok _ =>
    let pre2 := pre1 ++ [stageUpd "running_sandbox" (some (7/10)) (some "运行 Python 分析任务中…")]
    if env.sandboxExit ≠ 0 then
      ⟨pre2 ++ [analyticsFail (sandboxFailMsg env.sandboxExit env.stdout env.stderr)],
       attempts, sleeps, true⟩
    else if ¬ env.summaryExists then
      ⟨pre2 ++ [analyticsFail "No summary.json generated."], attempts, sleeps, true⟩
    else
      let pre3 := pre2 ++
        [stageUpd "finalizing" (some (9/10)) (some "生成摘要中…"),
         stageUpd "summarizing" (some (47/50)) (some "DeepSeek 生成自然语言摘要中…")]
      ⟨pre3 ++ [{ status := some "succeeded", finished_at := some 1,
                  llm_model := some env.modelName,
                  summary := some { analysis := env.analysisContent, llm := env.summarizeResult },
                  error := none, stage := some "done", progress := some 1, detail := none }],
       attempts, sleeps, true⟩

/-- `run_analytics_job(job_id)` as a trace generator. -/
def run_analytics_job (env : AnalyticsEnv) : RunTrace AnalyticsSummary :=
  if ¬ env.jobExists then ⟨[], 0, [], false⟩ else
  let u0 : JobUpdate AnalyticsSummary :=
    { status := some "running", started_at := some 0, stage := some "starting",
      progress := some (1/100) }
  if ¬ env.apiKey then ⟨[u0, analyticsFail "DEEPSEEK_API_KEY is not set."], 0, [], false⟩ else
  let uMeta := stageUpd "reading_metadata" (some (1/10)) (some "读取数据元信息中…")
  match env.metadataErr with
  | some m => ⟨[u0, uMeta, analyticsFail m], 0, [], false⟩
  | none =>
    let uGen := stageUpd "generating_code" (some (3/10)) (some "DeepSeek 生成分析代码中…")
    let s1 := env.attempt1.streams.map streamUpd
    match env.attempt1.outcome with
    | .ok code => analyticsAfterCodegen env code ([u0, uMeta, uGen] ++ s1) 1 []
    | .error msg1 =>
      if isTimeoutMsg msg1 then
        let uRetry := stageUpd "retrying" (some (8/25)) (some "DeepSeek 超时，正在重试（1/1）…")
        let s2 := env.attempt2.streams.map streamUpd
        match env.attempt2.outcome with
        | .ok code =>
            analyticsAfterCodegen env code
              ([u0, uMeta, uGen] ++ s1 ++ uRetry :: uGen :: s2) 2 [3/2]
        | .error msg2 =>
            ⟨([u0, uMeta, uGen] ++ s1 ++ uRetry :: uGen :: s2) ++ [analyticsFail msg2],
             2, [3/2], false⟩
      else ⟨([u0, uMeta, uGen] ++ s1) ++ [analyticsFail msg1], 1, [], false⟩

/-- The row as created by the request layer before the run. -/
def analyticsInitialJob : JobRecord AnalyticsSummary :=
  create_analytics_job "queued" "data.csv" "prompt" "workdir"

/-- The persisted row after the whole run. -/
def analyticsFinalJob (env : AnalyticsEnv) : JobRecord AnalyticsSummary :=
  applyUpdates analyticsInitialJob (run_analytics_job env).updates

/-- The successive persisted `progress` values of one run (updates that
pass `progress=None` leave the stored value unchanged and are dropped). -/
def persistedProgress (env : AnalyticsEnv) : List ℚ :=
  (run_analytics_job env).updates.filterMap (fun u => u.progress)

/-- Bool check that a progress sequence never decreases. -/
def nonDecreasing : List ℚ → Bool
  | [] => true
  | [_] => true
  | a :: b :: t => decide (a ≤ b) && nonDecreasing (b :: t)

/-- Whether the run took the timeout-retry path. -/
def retried (env : AnalyticsEnv) : Bool :=
  match env.attempt1.outcome with
  | .error m => isTimeoutMsg m
  | .ok _ => false

/-- External outcomes of one `run_excel_job(job_id)` call.  The excel
runner has no streaming, no stage/progress updates, and no retry loop. -/
structure ExcelEnv where
  jobExists : Bool
  apiKey : Bool
  metadataErr : Option String
  /-- `generate_excel_code` outcome (single call, no retry). -/
  codegen : Except String (List PyNode)
  modelName : String
  sandboxExit : Int
  stdout : String
  stderr : String
  /-- `output_path.exists()`. -/
  outputExists : Bool
  /-- `output_size_mb > settings.sandbox_max_output_mb` (the interpolated
  size in the message is elided). -/
  outputTooLarge : Bool
  /-- parsed `summary.json` when `summary_path.exists()`, else `none`
  (in which case the success update passes `summary=None`). -/
  summaryContent : Option String

/-- The excel `except` handlers' terminal update (no stage column). -/
def excelFail (msg : String) : JobUpdate String :=
  { status := some "failed", finished_at := some 1, error := some msg }

/-- `run_excel_job(job_id)` as a trace generator (the update function of
`excel_jobs_db.py` is the same code as `update_analytics_job`). -/
def run_excel_job (env : ExcelEnv) : RunTrace String :=
  if ¬ env.jobExists then ⟨[], 0, [], false⟩ else
  let u0 : JobUpdate String := { status := some "running", started_at := some 0 }
  if ¬ env.apiKey then ⟨[u0, excelFail "DEEPSEEK_API_KEY is not set."], 0, [], false⟩ else
  match env.metadataErr with
  | some m => ⟨[u0, excelFail m], 0, [], false⟩
  | none =>
    match env.codegen with
    | .error msg => ⟨[u0, excelFail msg], 1, [], false⟩
    | .ok code =>
      match validate_generated_code code "transform" with
      | .error e => ⟨[u0, excelFail ("ValidationError: " ++ e)], 1, [], false⟩
      | .ok _ =>
        if env.sandboxExit ≠ 0 then
          ⟨[u0, excelFail (sandboxFailMsg env.sandboxExit env.stdout env.stderr)], 1, [], true⟩
        else if ¬ env.outputExists then
          ⟨[u0, excelFail "No output.xlsx generated."], 1, [], true⟩
        else if env.outputTooLarge then
          ⟨[u0, excelFail "Output too large."], 1, [], true⟩
        else
          ⟨[u0, { status := some "succeeded", finished_at := some 1,
                  llm_model := some env.modelName, summary := env.summaryContent,
                  error := none }], 1, [], true⟩

/-- The excel row as created before the run. -/
def excelInitialJob : JobRecord String :=
  create_analytics_job "queued" "input.xlsx" "prompt" "workdir"

/-- The persisted excel row after the whole run. -/
def excelFinalJob (env : ExcelEnv) : JobRecord String :=
  applyUpdates excelInitialJob (run_excel_job env).updates

/-! ## Shared lemmas -/

theorem applyUpdates_append {σ : Type} (job : JobRecord σ) (l₁ l₂ : List (JobUpdate σ)) :
    applyUpdates job (l₁ ++ l₂) = applyUpdates (applyUpdates job l₁) l₂ := by
  simp [applyUpdates]

theorem applyUpdates_concat {σ : Type} (job : JobRecord σ) (l : List (JobUpdate σ))
    (u : JobUpdate σ) :
    applyUpdates job (l ++ [u]) = update_analytics_job (applyUpdates job l) u := by
  simp [applyUpdates]

theorem update_job_status_some {σ : Type} (j : JobRecord σ) (u : JobUpdate σ) (s : String)
    (h : u.status = some s) : (update_analytics_job j u).status = s := by
  simp [update_analytics_job, h]

theorem update_job_error_some {σ : Type} (j : JobRecord σ) (u : JobUpdate σ) (e : String)
    (h : u.error = some e) : (update_analytics_job j u).error = some e := by
  simp [update_analytics_job, h]

theorem update_job_summary_some {σ : Type} (j : JobRecord σ) (u : JobUpdate σ) (s : σ)
    (h : u.summary = some s) : (update_analytics_job j u).summary_json = some s := by
  simp [update_analytics_job, h]

/-! ## Claim C10 -/

/-- **C10** — for every call to the job-update store function, only the
fields passed with a non-`None` argument are written: every field whose
keyword argument is `None` keeps its previous persisted value (so the
success transition passing `error=None` does not clear a previously
recorded error string), and a non-`None` detail value is truncated to its
last 8000 characters (when longer than 8000) before being stored. -/
theorem C10_update_frame {σ : Type} (job : JobRecord σ) (u : JobUpdate σ) :
    (u.status = none → (update_analytics_job job u).status = job.status) ∧
    (u.started_at = none → (update_analytics_job job u).started_at = job.started_at) ∧
    (u.finished_at = none → (update_analytics_job job u).finished_at = job.finished_at) ∧
    (u.llm_model = none → (update_analytics_job job u).llm_model = job.llm_model) ∧
    (u.summary = none → (update_analytics_job job u).summary_json = job.summary_json) ∧
    (u.error = none → (update_analytics_job job u).error = job.error) ∧
    (u.stage = none → (update_analytics_job job u).stage = job.stage) ∧
    (u.progress = none → (update_analytics_job job u).progress = job.progress) ∧
    (u.detail = none → (update_analytics_job job u).detail = job.detail) ∧
    (∀ d : String, u.detail = some d →
      (update_analytics_job job u).detail =
        some (if d.length > 8000 then strTakeRight d 8000 else d)) := by
  refine ⟨?_, ?_, ?_, ?_, ?_, ?_, ?_, ?_, ?_, ?_⟩
  all_goals first
    | (intro h; simp [update_analytics_job, h])
    | (intro d h; simp [update_analytics_job, h])

/-- Witness for C10: a success-shaped update with `error=None` leaves a
previously recorded error string in place. -/
theorem C10_update_frame_witness :
    (update_analytics_job (σ := Unit)
        { status := "running", created_at := 0, started_at := none, finished_at := none,
          input_filename := "f", prompt := "p", llm_model := none, summary_json := none,
          error := some "boom", stage := "s", progress := 0, detail := some "d",
          work_dir := "w" }
        { status := some "succeeded", error := none }).error = some "boom" :=
  (C10_update_frame _ _).2.2.2.2.2.1 rfl

/-! ## Claim C5 -/

/-- **C5** — the sandbox runner process obeys the exit-code contract:
with a positional-parameter count other than five it exits 2; when the
loaded module has no callable entry function it exits 3; when the entry
function returns, the result artifact is written and it exits 0; an
uncaught failure inside the generated code (a raising module load or a
raising entry call) exits with the interpreter's code 1 — a non-zero code
distinct from 2 and 3. -/
theorem C5_runner_exit_contract (env : RunnerEnv) :
    (env.args.length ≠ 5 → sandbox_runner_main env = (2, [])) ∧
    (env.args.length = 5 → env.moduleOk = true → env.entryCallable = false →
      sandbox_runner_main env = (3, [])) ∧
    (env.args.length = 5 → env.moduleOk = true → env.entryCallable = true →
      ∀ v, env.entryResult = .ok v →
        (sandbox_runner_main env).1 = 0 ∧ (sandbox_runner_main env).2.length = 1) ∧
    (env.args.length = 5 → env.moduleOk = false → sandbox_runner_main env = (1, [])) ∧
    (env.args.length = 5 → env.moduleOk = true → env.entryCallable = true →
      ∀ msg, env.entryResult = .error msg → sandbox_runner_main env = (1, [])) := by
  refine ⟨?_, ?_, ?_, ?_, ?_⟩
  · intro h
    have h6 : env.args.length + 1 ≠ 6 := by omega
    simp [sandbox_runner_main, h6]
  · intro h hm hc
    have h6 : ¬(env.args.length + 1 ≠ 6) := by omega
    simp [sandbox_runner_main, h6, hm, hc]
  · intro h hm hc v hv
    have h6 : ¬(env.args.length + 1 ≠ 6) := by omega
    simp [sandbox_runner_main, h6, hm, hc, hv]
  · intro h hm
    have h6 : ¬(env.args.length + 1 ≠ 6) := by omega
    simp [sandbox_runner_main, h6, hm]
  · intro h hm hc msg hv
    have h6 : ¬(env.args.length + 1 ≠ 6) := by omega
    simp [sandbox_runner_main, h6, hm, hc, hv]

/-- Witness for C5: five parameters but no callable entry exits 3. -/
theorem C5_runner_exit_contract_witness :
    sandbox_runner_main
      ⟨["code.py", "in.xlsx", "out.xlsx", "sum.json", "60"], true, false, .ok .noneV⟩
      = (3, []) :=
  (C5_runner_exit_contract _).2.1 rfl rfl rfl

/-! ## Claim C6 -/

/-- **C6** — when the entry function returns a non-mapping value the
runner writes `{"summary": value}` to the result artifact; a mapping is
written as-is; in both cases exactly one write happens, UTF-8 encoded and
pretty-printed (`indent=2`). -/
theorem C6_result_artifact (env : RunnerEnv) (v : PyValue)
    (hargs : env.args.length = 5) (hmod : env.moduleOk = true)
    (hcall : env.entryCallable = true) (hres : env.entryResult = .ok v) :
    (sandbox_runner_main env).2.length = 1 ∧
    (v.isDict = false →
      (sandbox_runner_main env).2 =
        [{ content := .dict [("summary", v)], encoding := "utf-8", indent := 2 }]) ∧
    (v.isDict = true →
      (sandbox_runner_main env).2 =
        [{ content := v, encoding := "utf-8", indent := 2 }]) := by
  have h6 : ¬(env.args.length + 1 ≠ 6) := by omega
  refine ⟨?_, ?_, ?_⟩
  · simp [sandbox_runner_main, h6, hmod, hcall, hres]
  · intro hd; simp [sandbox_runner_main, h6, hmod, hcall, hres, wrapSummary, hd]
  · intro hd; simp [sandbox_runner_main, h6, hmod, hcall, hres, wrapSummary, hd]

/-- Witness for C6: a numeric return is wrapped as `{"summary": 7}`. -/
theorem C6_result_artifact_witness :
    (sandbox_runner_main
      ⟨["code.py", "in.csv", "outdir", "sum.json", "60"], true, true, .ok (.num 7)⟩).2 =
      [{ content := .dict [("summary", .num 7)], encoding := "utf-8", indent := 2 }] :=
  (C6_result_artifact
    ⟨["code.py", "in.csv", "outdir", "sum.json", "60"], true, true, .ok (.num 7)⟩
    (.num 7) rfl rfl rfl rfl).2.1 rfl

/-! ## Claim C2 -/

/-- **C2 counterexample** — the claim requires the entry function to be
matched at the top syntactic level only, and a candidate defining it
solely inside another function to be rejected.  `ast.walk` visits nested
function bodies, so this candidate — whose only `transform` is nested
inside `outer` — is accepted by the validator, refuting the claim. -/
theorem C2_counterexample :
    validate_generated_code [.functionDef "outer" [.functionDef "transform" []]] "transform"
      = .ok () := rfl

/-- **C2 (amended)** — on a candidate with no rule violation, the
validator accepts iff the required entry function, matched by exact name,
is defined *anywhere* in the walked tree (any nesting depth); a candidate
defining it nowhere is rejected with the `Missing required function`
error. -/
theorem C2_entry_function_any_depth (tree : List PyNode) (req : String)
    (hbenign : ∀ n ∈ walkFrom tree, checkNode n = none) :
    (validate_generated_code tree req = .ok () ↔
      (walkFrom tree).any (isRequiredDef req) = true) ∧
    ((walkFrom tree).any (isRequiredDef req) = false →
      validate_generated_code tree req = .error ("Missing required function: " ++ req ++ "()")) := by
  have hfs : (walkFrom tree).findSome? checkNode = none :=
    List.findSome?_eq_none_iff.mpr hbenign
  have hv : validate_generated_code tree req =
      (if (walkFrom tree).any (isRequiredDef req) then .ok ()
       else .error ("Missing required function: " ++ req ++ "()")) := by
    simp [validate_generated_code, hfs]
  constructor
  · rw [hv]
    by_cases h : (walkFrom tree).any (isRequiredDef req) <;> simp [h]
  · intro h
    rw [hv, h]
    simp

/-- Witness for C2 (amended): a candidate defining only `helper` is
rejected with the `Missing required function` error. -/
theorem C2_entry_function_any_depth_witness :
    validate_generated_code [PyNode.functionDef "helper" []] "transform"
      = .error "Missing required function: transform()" :=
  (C2_entry_function_any_depth [PyNode.functionDef "helper" []] "transform"
      (by decide)).2
    (by decide)

/-! ## Claim C1 -/

theorem containsSeq_append_self (pat pre : Chars) : containsSeq pat (pre ++ pat) = true := by
  induction pre with
  | nil =>
      cases pat with
      | nil => rfl
      | cons a r => simp [containsSeq, List.isPrefixOf_iff_prefix]
  | cons c pre ih => simp [containsSeq, ih]

theorem strContains_append_self (s t : String) : strContains (s ++ t) t = true := by
  unfold strContains
  have h : (s ++ t).toList = s.toList ++ t.toList := by simp
  rw [h]
  exact containsSeq_append_self _ _

/-- **C1 counterexample** — a code unit containing `import os` (a
non-allowlisted module) whose *first* violation in walk order is a
different disallowed import (`import sys`): validation rejects it, but
the error — and hence the job's `ValidationError:`-prefixed error string
— names `sys` and does not mention `os`, refuting the "error naming that
specific module" part of the claim. -/
theorem C1_counterexample :
    validate_generated_code
        [.importName ["sys"], .importName ["os"], .functionDef "transform" []] "transform"
      = .error "Disallowed import: sys" ∧
    strContains "Disallowed import: sys" "os" = false ∧
    (excelFinalJob
      { jobExists := true, apiKey := true, metadataErr := none,
        codegen := .ok [.importName ["sys"], .importName ["os"], .functionDef "transform" []],
        modelName := "deepseek-chat", sandboxExit := 0, stdout := "", stderr := "",
        outputExists := true, outputTooLarge := false, summaryContent := none }).error
      = some ("ValidationError: " ++ "Disallowed import: sys") := by
  exact ⟨rfl, by decide, rfl⟩

/-- **C1 (amended)** — a code unit containing an import of a top-level
module outside the allowlist is always rejected by validation; the
reported error is the first violation in walk order, so whenever the
reported violation *is* a disallowed import (in particular when it is the
only violation), the code is never executed and the job ends failed with
a `ValidationError: Disallowed import: <module>` error mentioning that
module name. -/
theorem C1_disallowed_import (env : ExcelEnv) (tree : List PyNode)
    (names : List String) (m : String)
    (hmem : PyNode.importName names ∈ walkFrom tree)
    (hm : m ∈ names) (hbad : topModule m ∉ allowedImports) :
    (∃ e, validate_generated_code tree "transform" = .error e) ∧
    (∀ nm : String,
      validate_generated_code tree "transform" = .error ("Disallowed import: " ++ nm) →
      env.codegen = .ok tree → env.jobExists = true → env.apiKey = true →
      env.metadataErr = none →
      (excelFinalJob env).status = "failed" ∧
      (excelFinalJob env).error = some ("ValidationError: " ++ ("Disallowed import: " ++ nm)) ∧
      strContains ("ValidationError: " ++ ("Disallowed import: " ++ nm)) nm = true ∧
      (run_excel_job env).sandboxRan = false) := by
  constructor
  · cases hfs : (walkFrom tree).findSome? checkNode with
    | some e => exact ⟨e, by simp [validate_generated_code, hfs]⟩
    | none =>
      exfalso
      have hnode := List.findSome?_eq_none_iff.mp hfs _ hmem
      simp only [checkNode] at hnode
      have halias := List.findSome?_eq_none_iff.mp hnode m hm
      by_cases hin : topModule m ∈ allowedImports
      · exact hbad hin
      · simp [hin] at halias
  · intro nm hval hcg hje hak hmd
    have hrun : run_excel_job env =
        ⟨[{ status := some "running", started_at := some 0 },
          excelFail ("ValidationError: " ++ ("Disallowed import: " ++ nm))], 1, [], false⟩ := by
      simp [run_excel_job, hje, hak, hmd, hcg, hval, excelFail]
    refine ⟨?_, ?_, ?_, ?_⟩
    · simp [excelFinalJob, hrun, applyUpdates, update_analytics_job, excelFail]
    · simp [excelFinalJob, hrun, applyUpdates, update_analytics_job, excelFail]
    · rw [← String.append_assoc]
      exact strContains_append_self _ _
    · simp [hrun]

/-- Witness for C1 (amended): `import os` as the only violation fails the
job with an error naming `os`, and the sandbox never runs. -/
theorem C1_disallowed_import_witness :
    (excelFinalJob
      { jobExists := true, apiKey := true, metadataErr := none,
        codegen := .ok [.importName ["os"], .functionDef "transform" []],
        modelName := "deepseek-chat", sandboxExit := 0, stdout := "", stderr := "",
        outputExists := true, outputTooLarge := false, summaryContent := none }).status
      = "failed" ∧
    (run_excel_job
      { jobExists := true, apiKey := true, metadataErr := none,
        codegen := .ok [.importName ["os"], .functionDef "transform" []],
        modelName := "deepseek-chat", sandboxExit := 0, stdout := "", stderr := "",
        outputExists := true, outputTooLarge := false, summaryContent := none }).sandboxRan
      = false := by
  have h :=
    (C1_disallowed_import
      { jobExists := true, apiKey := true, metadataErr := none,
        codegen := .ok [.importName ["os"], .functionDef "transform" []],
        modelName := "deepseek-chat", sandboxExit := 0, stdout := "", stderr := "",
        outputExists := true, outputTooLarge := false, summaryContent := none }
      [.importName ["os"], .functionDef "transform" []]
      ["os"] "os"
      (by simp [walkFrom_cons, walkFrom_nil, astChildren])
      (by simp)
      (by decide)).2 "os"
      rfl
      rfl rfl rfl rfl
  exact ⟨h.1, h.2.2.2⟩

/-! ## Claims C4 and C9: shared lemmas about the post-codegen tail -/

theorem afterCodegen_attempts_sleeps (env : AnalyticsEnv) (code : List PyNode)
    (pre : List (JobUpdate AnalyticsSummary)) (a : Nat) (s : List ℚ) :
    (analyticsAfterCodegen env code pre a s).codegenAttempts = a ∧
    (analyticsAfterCodegen env code pre a s).sleeps = s := by
  unfold analyticsAfterCodegen
  cases hv : validate_generated_code code "analyze" with
  | error e => simp
  | ok u => simp; split_ifs <;> simp

theorem afterCodegen_success_final (env : AnalyticsEnv) (code : List PyNode)
    (pre : List (JobUpdate AnalyticsSummary)) (a : Nat) (s : List ℚ)
    (hval : validate_generated_code code "analyze" = .ok ())
    (hse : env.sandboxExit = 0) (hsum : env.summaryExists = true) :
    (applyUpdates analyticsInitialJob
        (analyticsAfterCodegen env code pre a s).updates).status = "succeeded" ∧
    (applyUpdates analyticsInitialJob
        (analyticsAfterCodegen env code pre a s).updates).summary_json =
      some { analysis := env.analysisContent, llm := env.summarizeResult } := by
  unfold analyticsAfterCodegen
  rw [hval]
  have h0 : ¬(env.sandboxExit ≠ 0) := by simp [hse]
  simp only [h0, hsum, if_false, ite_false, ite_true, not_true, if_neg, Bool.not_true]
  constructor
  · rw [applyUpdates_concat]
    exact update_job_status_some _ _ _ rfl
  · rw [applyUpdates_concat]
    exact update_job_summary_some _ _ _ rfl

/-! ## Claim C4 -/

/-- **C4 counterexample** — the claim quantifies over every job run, but
the excel (transform) runner performs no retry at all: a codegen failure
classified as a timeout still ends the job failed after exactly one
codegen attempt and no back-off sleep. -/
theorem C4_counterexample :
    isTimeoutMsg "ReadTimeout: request timed out" = true ∧
    (run_excel_job
      { jobExists := true, apiKey := true, metadataErr := none,
        codegen := .error "ReadTimeout: request timed out", modelName := "deepseek-chat",
        sandboxExit := 0, stdout := "", stderr := "", outputExists := true,
        outputTooLarge := false, summaryContent := none }).codegenAttempts = 1 ∧
    (run_excel_job
      { jobExists := true, apiKey := true, metadataErr := none,
        codegen := .error "ReadTimeout: request timed out", modelName := "deepseek-chat",
        sandboxExit := 0, stdout := "", stderr := "", outputExists := true,
        outputTooLarge := false, summaryContent := none }).sleeps = [] ∧
    (excelFinalJob
      { jobExists := true, apiKey := true, metadataErr := none,
        codegen := .error "ReadTimeout: request timed out", modelName := "deepseek-chat",
        sandboxExit := 0, stdout := "", stderr := "", outputExists := true,
        outputTooLarge := false, summaryContent := none }).status = "failed" := by
  refine ⟨by decide, by simp [run_excel_job], by simp [run_excel_job], ?_⟩
  simp [excelFinalJob, run_excel_job, applyUpdates, update_analytics_job, excelFail,
    excelInitialJob, create_analytics_job]

/-- **C4 (amended)** — in the *analytics* runner the codegen call is
retried exactly once when (and only when) the first attempt's failure is
classified as a timeout, after a single fixed 1.5-second back-off, and
never for non-timeout model failures (validation and sandbox failures
happen after the loop and cannot trigger it); a first-timeout /
second-success run can still end succeeded with exactly two codegen
attempts.  The excel runner performs no retry: it never sleeps and makes
at most one codegen call. -/
theorem C4_retry_policy (env : AnalyticsEnv) (eenv : ExcelEnv)
    (hje : env.jobExists = true) (hak : env.apiKey = true) (hmd : env.metadataErr = none) :
    ((run_analytics_job env).codegenAttempts = if retried env = true then 2 else 1) ∧
    ((run_analytics_job env).sleeps = if retried env = true then [(3/2 : ℚ)] else []) ∧
    (∀ m code, env.attempt1.outcome = .error m → isTimeoutMsg m = true →
      env.attempt2.outcome = .ok code →
      validate_generated_code code "analyze" = .ok () →
      env.sandboxExit = 0 → env.summaryExists = true →
      (analyticsFinalJob env).status = "succeeded" ∧
      (run_analytics_job env).codegenAttempts = 2) ∧
    ((run_excel_job eenv).sleeps = [] ∧ (run_excel_job eenv).codegenAttempts ≤ 1) := by
  refine ⟨?_, ?_, ?_, ?_⟩
  · cases h1 : env.attempt1.outcome with
    | ok code =>
        simp only [retried, h1, if_neg]
        simp [run_analytics_job, hje, hak, hmd, h1,
          (afterCodegen_attempts_sleeps env code _ 1 []).1]
    | error m1 =>
        by_cases ht : isTimeoutMsg m1
        · cases h2 : env.attempt2.outcome with
          | ok code =>
              simp [run_analytics_job, hje, hak, hmd, h1, h2, ht, retried,
                (afterCodegen_attempts_sleeps env code _ 2 [3/2]).1]
          | error m2 =>
              simp [run_analytics_job, hje, hak, hmd, h1, h2, ht, retried]
        · simp [run_analytics_job, hje, hak, hmd, h1, ht, retried]
  · cases h1 : env.attempt1.outcome with
    | ok code =>
        simp [run_analytics_job, hje, hak, hmd, h1, retried,
          (afterCodegen_attempts_sleeps env code _ 1 []).2]
    | error m1 =>
        by_cases ht : isTimeoutMsg m1
        · cases h2 : env.attempt2.outcome with
          | ok code =>
              simp [run_analytics_job, hje, hak, hmd, h1, h2, ht, retried,
                (afterCodegen_attempts_sleeps env code _ 2 [3/2]).2]
          | error m2 =>
              simp [run_analytics_job, hje, hak, hmd, h1, h2, ht, retried]
        · simp [run_analytics_job, hje, hak, hmd, h1, ht, retried]
  · intro m code h1 ht h2 hval hse hsum
    constructor
    · unfold analyticsFinalJob
      simp only [run_analytics_job, hje, hak, hmd, h1, h2, ht, Bool.not_true, ite_true,
        ite_false]
      exact (afterCodegen_success_final env code _ 2 [3/2] hval hse hsum).1
    · simp [run_analytics_job, hje, hak, hmd, h1, h2, ht,
        (afterCodegen_attempts_sleeps env code _ 2 [3/2]).1]
  · obtain ⟨je, ak, me, cg, mn, se, so, st, oe, ot, sc⟩ := eenv
    cases je
    · simp [run_excel_job]
    · cases ak
      · simp [run_excel_job]
      · cases me with
        | some m => simp [run_excel_job]
        | none =>
          cases cg with
          | error m => simp [run_excel_job]
          | ok code =>
            cases hv : validate_generated_code code "transform" with
            | error e => simp [run_excel_job, hv]
            | ok u => simp only [run_excel_job]; simp [hv]; split_ifs <;> simp

/-- Witness for C4 (amended): first attempt times out, second succeeds,
job succeeds with exactly two attempts and one 1.5s sleep. -/
theorem C4_retry_policy_witness :
    (analyticsFinalJob
      { jobExists := true, apiKey := true, metadataErr := none,
        attempt1 := ⟨[], .error "ReadTimeout"⟩,
        attempt2 := ⟨[], .ok [.functionDef "analyze" []]⟩,
        modelName := "deepseek-chat", sandboxExit := 0, stdout := "", stderr := "",
        summaryExists := true, analysisContent := "a", summarizeResult := none }).status
      = "succeeded" ∧
    (run_analytics_job
      { jobExists := true, apiKey := true, metadataErr := none,
        attempt1 := ⟨[], .error "ReadTimeout"⟩,
        attempt2 := ⟨[], .ok [.functionDef "analyze" []]⟩,
        modelName := "deepseek-chat", sandboxExit := 0, stdout := "", stderr := "",
        summaryExists := true, analysisContent := "a", summarizeResult := none }).codegenAttempts
      = 2 :=
  (C4_retry_policy
    { jobExists := true, apiKey := true, metadataErr := none,
      attempt1 := ⟨[], .error "ReadTimeout"⟩,
      attempt2 := ⟨[], .ok [.functionDef "analyze" []]⟩,
      modelName := "deepseek-chat", sandboxExit := 0, stdout := "", stderr := "",
      summaryExists := true, analysisContent := "a", summarizeResult := none }
    { jobExists := false, apiKey := false, metadataErr := none, codegen := .error "x",
      modelName := "m", sandboxExit := 0, stdout := "", stderr := "",
      outputExists := false, outputTooLarge := false, summaryContent := none }
    rfl rfl rfl).2.2.1 "ReadTimeout" [.functionDef "analyze" []] rfl (by decide) rfl
    rfl
    rfl rfl

/-! ## Claim C9 -/

/-- **C9** — if the summarization model call fails after the sandbox
result was ingested, the exception is swallowed: the job still reaches
the succeeded terminal state and its persisted result payload carries
only the structured analysis, with no narrative (`llm`) part. -/
theorem C9_summarization_swallowed (env : AnalyticsEnv) (code : List PyNode)
    (hje : env.jobExists = true) (hak : env.apiKey = true) (hmd : env.metadataErr = none)
    (hcode : env.attempt1.outcome = .ok code ∨
      (∃ m, env.attempt1.outcome = .error m ∧ isTimeoutMsg m = true ∧
        env.attempt2.outcome = .ok code))
    (hval : validate_generated_code code "analyze" = .ok ())
    (hse : env.sandboxExit = 0) (hsum : env.summaryExists = true)
    (hfail : env.summarizeResult = none) :
    (analyticsFinalJob env).status = "succeeded" ∧
    (analyticsFinalJob env).summary_json =
      some { analysis := env.analysisContent, llm := none } := by
  have key := fun pre a s => afterCodegen_success_final env code pre a s hval hse hsum
  rw [hfail] at key
  rcases hcode with h1 | ⟨m, h1, ht, h2⟩
  · unfold analyticsFinalJob
    simp only [run_analytics_job, hje, hak, hmd, h1, Bool.not_true, ite_true, ite_false]
    exact key _ 1 []
  · unfold analyticsFinalJob
    simp only [run_analytics_job, hje, hak, hmd, h1, h2, ht, Bool.not_true, ite_true,
      ite_false]
    exact key _ 2 [3/2]

/-- Witness for C9: everything succeeds except the summarization call;
the job still succeeds with an analysis-only payload. -/
theorem C9_summarization_swallowed_witness :
    (analyticsFinalJob
      { jobExists := true, apiKey := true, metadataErr := none,
        attempt1 := ⟨["partial"], .ok [.functionDef "analyze" []]⟩,
        attempt2 := ⟨[], .error "unused"⟩,
        modelName := "deepseek-chat", sandboxExit := 0, stdout := "", stderr := "",
        summaryExists := true, analysisContent := "analysis-json",
        summarizeResult := none }).status = "succeeded" ∧
    (analyticsFinalJob
      { jobExists := true, apiKey := true, metadataErr := none,
        attempt1 := ⟨["partial"], .ok [.functionDef "analyze" []]⟩,
        attempt2 := ⟨[], .error "unused"⟩,
        modelName := "deepseek-chat", sandboxExit := 0, stdout := "", stderr := "",
        summaryExists := true, analysisContent := "analysis-json",
        summarizeResult := none }).summary_json
      = some { analysis := "analysis-json", llm := none } :=
  C9_summarization_swallowed
    { jobExists := true, apiKey := true, metadataErr := none,
      attempt1 := ⟨["partial"], .ok [.functionDef "analyze" []]⟩,
      attempt2 := ⟨[], .error "unused"⟩,
      modelName := "deepseek-chat", sandboxExit := 0, stdout := "", stderr := "",
      summaryExists := true, analysisContent := "analysis-json",
      summarizeResult := none }
    [.functionDef "analyze" []] rfl rfl rfl (Or.inl rfl)
    rfl
    rfl rfl rfl

/-! ## Claim C8 -/

/-- Bounds satisfied by every sheet description built by
`extract_dataset_metadata`'s shared per-sheet body. -/
theorem describeSheet_bounds (sr mc mcc : Nat) (raw : RawSheet) :
    (describeSheet sr mc mcc raw).preview_columns.length ≤ mc ∧
    (describeSheet sr mc mcc raw).sample_rows.length ≤ sr ∧
    ((describeSheet sr mc mcc raw).truncated_columns = true ↔
      mc < (describeSheet sr mc mcc raw).columns_all.length) ∧
    ((describeSheet sr mc mcc raw).truncated_columns = true →
      (describeSheet sr mc mcc raw).preview_columns.length = mc) ∧
    (∀ row ∈ (describeSheet sr mc mcc raw).sample_rows, ∀ kv ∈ row,
      ∀ str : String, kv.2 = CellValue.str str →
        str.length ≤ mcc ∨
        ∃ t : String, str = t ++ "...(truncated)" ∧ t.length = mcc) := by
  refine ⟨?_, ?_, ?_, ?_, ?_⟩
  · by_cases h : raw.columns.length > mc
    · simp [describeSheet, readSheet, h]
    · simp [describeSheet, readSheet, h]
      omega
  · by_cases h : raw.columns.length > mc <;>
      simp [describeSheet, readSheet, truncate_sample_rows, h] <;> omega
  · by_cases h : raw.columns.length > mc <;>
      simp [describeSheet, readSheet, h] <;> omega
  · intro ht
    by_cases h : raw.columns.length > mc
    · simp [describeSheet, readSheet, h]
      omega
    · simp [describeSheet, readSheet, h] at ht ⊢
  · intro row hrow kv hkv str hstr
    simp only [describeSheet, truncate_sample_rows, List.mem_map] at hrow
    rcases hrow with ⟨row0, hrow0, rfl⟩
    simp only [List.mem_map] at hkv
    rcases hkv with ⟨kv0, hkv0, rfl⟩
    cases hv : kv0.2 with
    | other => rw [hv] at hstr; simp [truncateCell] at hstr
    | str s0 =>
      rw [hv] at hstr
      by_cases hlen : s0.length > mcc
      · simp [truncateCell, hlen] at hstr
        subst hstr
        right
        refine ⟨strTake s0 mcc, rfl, ?_⟩
        have h1 : (strTake s0 mcc).length = (s0.toList.take mcc).length := rfl
        have h2 : s0.toList.length = s0.length := rfl
        rw [h1, List.length_take]
        omega
      · simp [truncateCell, hlen] at hstr
        subst hstr
        left
        omega

/-- **C8 counterexample** — the excel workbook metadata extractor
(`extract_workbook_metadata`) named by the claim inspects *every* sheet
(11 here, over the claimed 10-sheet cap) and applies no column cap and no
`truncated_columns` flag: a 61-column sheet is reported with all 61
columns. -/
theorem C8_counterexample :
    (extract_workbook_metadata
        (List.replicate 11 ⟨"s", List.replicate 61 "c", []⟩) 8).length = 11 ∧
    ((extract_workbook_metadata
        (List.replicate 11 ⟨"s", List.replicate 61 "c", []⟩) 8).headD
      ⟨"", [], []⟩).columns.length = 61 := by
  constructor <;> simp [extract_workbook_metadata, readSheet]

/-- **C8 (amended)** — the *analytics* dataset-metadata extractor is
bounded exactly as claimed at its call-site parameters (20 sample rows,
60 columns, 120-character cells, 10 workbook sheets, `truncated_columns`
flag with a cap-limited preview); the excel workbook extractor bounds
only the rows read per sheet (8) and inspects every sheet, with no
column cap, no cell truncation and no truncation flag. -/
theorem C8_metadata_bounds (input : RawInput) (meta : DatasetMetadata)
    (h : extract_dataset_metadata input 20 60 120 = .ok meta) :
    meta.sheets.length ≤ 10 ∧
    (∀ s ∈ meta.sheets,
      s.preview_columns.length ≤ 60 ∧
      s.sample_rows.length ≤ 20 ∧
      (s.truncated_columns = true ↔ 60 < s.columns_all.length) ∧
      (s.truncated_columns = true → s.preview_columns.length = 60) ∧
      (∀ row ∈ s.sample_rows, ∀ kv ∈ row, ∀ str : String, kv.2 = CellValue.str str →
        str.length ≤ 120 ∨ ∃ t : String, str = t ++ "...(truncated)")) ∧
    (∀ sheets : List RawSheet,
      (extract_workbook_metadata sheets 8).length = sheets.length ∧
      ∀ w ∈ extract_workbook_metadata sheets 8, w.sample_rows.length ≤ 8) := by
  have hsheet : ∀ raw : RawSheet, ∀ s, s = describeSheet 20 60 120 raw →
      s.preview_columns.length ≤ 60 ∧
      s.sample_rows.length ≤ 20 ∧
      (s.truncated_columns = true ↔ 60 < s.columns_all.length) ∧
      (s.truncated_columns = true → s.preview_columns.length = 60) ∧
      (∀ row ∈ s.sample_rows, ∀ kv ∈ row, ∀ str : String, kv.2 = CellValue.str str →
        str.length ≤ 120 ∨ ∃ t : String, str = t ++ "...(truncated)") := by
    intro raw s hs
    subst hs
    obtain ⟨h1, h2, h3, h4, h5⟩ := describeSheet_bounds 20 60 120 raw
    refine ⟨h1, h2, h3, h4, ?_⟩
    intro row hrow kv hkv str hstr
    rcases h5 row hrow kv hkv str hstr with hle | ⟨t, ht, htlen⟩
    · exact Or.inl hle
    · exact Or.inr ⟨t, ht⟩
  have hwb : ∀ sheets : List RawSheet,
      (extract_workbook_metadata sheets 8).length = sheets.length ∧
      ∀ w ∈ extract_workbook_metadata sheets 8, w.sample_rows.length ≤ 8 := by
    intro sheets
    constructor
    · simp [extract_workbook_metadata]
    · intro w hw
      simp only [extract_workbook_metadata, List.mem_map] at hw
      rcases hw with ⟨s, _, rfl⟩
      simp [readSheet]
  cases input with
  | csvFile filename table =>
      simp only [extract_dataset_metadata, Except.ok.injEq] at h
      subst h
      refine ⟨by simp, ?_, hwb⟩
      intro s hs
      simp only [List.mem_singleton] at hs
      exact hsheet _ s hs
  | workbook filename sheets =>
      simp only [extract_dataset_metadata, Except.ok.injEq] at h
      subst h
      refine ⟨?_, ?_, hwb⟩
      · simp only [List.length_map, List.length_take]
        omega
      · intro s hs
        simp only [List.mem_map] at hs
        rcases hs with ⟨raw, _, hraw⟩
        exact hsheet raw s hraw.symm
  | unsupported filename => simp [extract_dataset_metadata] at h

/-- Witness for C8 (amended): a one-column, one-row csv file. -/
theorem C8_metadata_bounds_witness :
    ({ filename := "f", kind := "csv",
       sheets := [{ name := "data", shape := (1, 1), columns_all := ["a"],
                    preview_columns := ["a"], truncated_columns := false,
                    sample_rows := [[("a", CellValue.str "x")]] }] } :
      DatasetMetadata).sheets.length ≤ 10 :=
  (C8_metadata_bounds (.csvFile "f" ⟨"t", ["a"], [[.str "x"]]⟩) _ rfl).1

/-! ## Claim C3 -/

theorem filterMap_progress_streams (texts : List String) :
    texts.filterMap ((fun u : JobUpdate AnalyticsSummary => u.progress) ∘ streamUpd) =
      List.replicate texts.length ((7 : ℚ)/20) := by
  induction texts with
  | nil => rfl
  | cons t ts ih => simp [Function.comp, streamUpd, stageUpd, ih, List.replicate_succ]

theorem filterMap_progress_streams_map (texts : List String) :
    (texts.map streamUpd).filterMap (fun u => u.progress) =
      List.replicate texts.length ((7 : ℚ)/20) := by
  rw [List.filterMap_map]
  exact filterMap_progress_streams texts

theorem nonDecreasing_cons (a : ℚ) (l : List ℚ) :
    nonDecreasing (a :: l) = true ↔ (∀ b ∈ l.head?, a ≤ b) ∧ nonDecreasing l = true := by
  cases l with
  | nil => simp [nonDecreasing]
  | cons b t => simp [nonDecreasing]

theorem nonDecreasing_replicate_append (c : ℚ) (n : Nat) (tail : List ℚ)
    (htail : nonDecreasing tail = true) (hc : ∀ b ∈ tail.head?, c ≤ b) :
    nonDecreasing (List.replicate n c ++ tail) = true := by
  induction n with
  | zero => simpa using htail
  | succ n ih =>
      rw [List.replicate_succ, List.cons_append, nonDecreasing_cons]
      refine ⟨?_, ih⟩
      intro b hb
      cases n with
      | zero => simpa using hc b (by simpa using hb)
      | succ m =>
          simp only [List.replicate_succ, List.cons_append, List.head?_cons,
            Option.mem_def, Option.some.injEq] at hb
          subst hb
          exact le_refl c

/-- The non-decreasing check for the fixed prefix
`0, 0.01, 0.1, 0.3` followed by the streamed `0.35`s and a branch tail. -/
theorem nonDecreasing_main_shape (k : Nat) (tail : List ℚ)
    (htail : nonDecreasing tail = true)
    (hhead : ∀ b ∈ tail.head?, (7 : ℚ)/20 ≤ b) :
    nonDecreasing ((0 : ℚ) :: 1/100 :: 1/10 :: 3/10 ::
      (List.replicate k ((7 : ℚ)/20) ++ tail)) = true := by
  have hrep : nonDecreasing (List.replicate k ((7 : ℚ)/20) ++ tail) = true :=
    nonDecreasing_replicate_append _ _ _ htail hhead
  have hhead2 : ∀ b ∈ (List.replicate k ((7 : ℚ)/20) ++ tail).head?, (3 : ℚ)/10 ≤ b := by
    intro b hb
    cases k with
    | zero =>
        simp only [List.replicate, List.nil_append] at hb
        have h1 := hhead b hb
        linarith
    | succ m =>
        simp only [List.replicate_succ, List.cons_append, List.head?_cons,
          Option.mem_def, Option.some.injEq] at hb
        subst hb
        norm_num
  rw [nonDecreasing_cons, nonDecreasing_cons, nonDecreasing_cons, nonDecreasing_cons]
  refine ⟨by intro b hb; simp at hb; subst hb; norm_num,
          by intro b hb; simp at hb; subst hb; norm_num,
          by intro b hb; simp at hb; subst hb; norm_num,
          hhead2, hrep⟩

/-- The persisted progress emitted by the post-codegen tail: the
`validating_code` value `0.55` followed by a branch-specific
non-decreasing tail. -/
theorem afterCodegen_progress_tail (env : AnalyticsEnv) (code : List PyNode)
    (pre : List (JobUpdate AnalyticsSummary)) (a : Nat) (s : List ℚ) :
    ∃ tail : List ℚ,
      (analyticsAfterCodegen env code pre a s).updates.filterMap (fun u => u.progress) =
        pre.filterMap (fun u => u.progress) ++ (11 : ℚ)/20 :: tail ∧
      nonDecreasing ((11 : ℚ)/20 :: tail) = true := by
  unfold analyticsAfterCodegen
  cases hv : validate_generated_code code "analyze" with
  | error e =>
      refine ⟨[], ?_, by norm_num [nonDecreasing]⟩
      simp [stageUpd]
  | ok u =>
      split_ifs with h1 h2
      · refine ⟨[7/10], ?_, by norm_num [nonDecreasing]⟩
        simp [stageUpd, analyticsFail]
      · refine ⟨[7/10, 9/10, 47/50, 1], ?_, by norm_num [nonDecreasing]⟩
        simp [stageUpd]
      · refine ⟨[7/10], ?_, by norm_num [nonDecreasing]⟩
        simp [stageUpd, analyticsFail]

/-- Monotonicity of a whole run's progress once codegen has succeeded,
given the shape of the progress persisted before the tail. -/
theorem nonDec_after (env : AnalyticsEnv) (code : List PyNode)
    (pre : List (JobUpdate AnalyticsSummary)) (a : Nat) (s : List ℚ) (k : Nat)
    (hpre : pre.filterMap (fun u => u.progress) =
      [(1 : ℚ)/100, 1/10, 3/10] ++ List.replicate k ((7 : ℚ)/20)) :
    nonDecreasing ((0 : ℚ) ::
      (analyticsAfterCodegen env code pre a s).updates.filterMap (fun u => u.progress))
      = true := by
  obtain ⟨tail, hfm, hnd⟩ := afterCodegen_progress_tail env code pre a s
  rw [hfm, hpre, List.append_assoc]
  exact nonDecreasing_main_shape k ((11 : ℚ)/20 :: tail) hnd
    (by intro b hb; simp at hb; subst hb; norm_num)

/-- **C3 counterexample** — on the timeout-retry path the persisted
progress decreases: a run whose first codegen attempt emits one streaming
update (progress `0.35`) and then times out persists `0.32` (`retrying`)
and then `0.3` (second `generating_code`) — twice strictly below the
previously persisted `0.35`. -/
theorem C3_counterexample :
    nonDecreasing (persistedProgress
      { jobExists := true, apiKey := true, metadataErr := none,
        attempt1 := ⟨["partial"], .error "ReadTimeout"⟩,
        attempt2 := ⟨[], .error "boom"⟩,
        modelName := "deepseek-chat", sandboxExit := 0, stdout := "", stderr := "",
        summaryExists := true, analysisContent := "a",
        summarizeResult := none }) = false := by
  have ht : isTimeoutMsg "ReadTimeout" = true := by decide
  have hp : persistedProgress
      { jobExists := true, apiKey := true, metadataErr := none,
        attempt1 := ⟨["partial"], .error "ReadTimeout"⟩,
        attempt2 := ⟨[], .error "boom"⟩,
        modelName := "deepseek-chat", sandboxExit := 0, stdout := "", stderr := "",
        summaryExists := true, analysisContent := "a",
        summarizeResult := none } =
      [1/100, 1/10, 3/10, 7/20, 8/25, 3/10] := by
    simp [persistedProgress, run_analytics_job, ht, streamUpd, stageUpd, analyticsFail]
  rw [hp]
  norm_num [nonDecreasing]

/-- The post-codegen tail: membership of `1.0` in its persisted progress
is equivalent to the final status being `succeeded`. -/
theorem afterCodegen_one_mem_iff (env : AnalyticsEnv) (code : List PyNode)
    (pre : List (JobUpdate AnalyticsSummary)) (a : Nat) (s : List ℚ)
    (hpre : (1 : ℚ) ∉ pre.filterMap (fun u => u.progress)) :
    ((1 : ℚ) ∈ (analyticsAfterCodegen env code pre a s).updates.filterMap
        (fun u => u.progress) ↔
      (applyUpdates analyticsInitialJob
        (analyticsAfterCodegen env code pre a s).updates).status = "succeeded") := by
  unfold analyticsAfterCodegen
  cases hv : validate_generated_code code "analyze" with
  | error e =>
      rw [applyUpdates_concat]
      rw [update_job_status_some _ _ "failed" rfl]
      simp [stageUpd, hpre]
      norm_num
  | ok u =>
      split_ifs with h1 h2
      · rw [applyUpdates_concat]
        rw [update_job_status_some _ _ "failed" rfl]
        simp [stageUpd, analyticsFail, hpre]
        norm_num
      · rw [applyUpdates_concat]
        rw [update_job_status_some _ _ "succeeded" rfl]
        simp [stageUpd, hpre]
      · rw [applyUpdates_concat]
        rw [update_job_status_some _ _ "failed" rfl]
        simp [stageUpd, analyticsFail, hpre]
        norm_num

/-- `1.0` is not among the pre-codegen and streaming progress values. -/
theorem one_not_mem_pre (k : Nat) :
    (1 : ℚ) ∉ ([(1 : ℚ)/100, 1/10, 3/10] ++ List.replicate k ((7 : ℚ)/20)) := by
  simp only [List.mem_append, List.mem_cons, List.mem_replicate, List.not_mem_nil]
  push_neg
  norm_num

/-- **C3 (amended)** — within a single run that takes no timeout retry,
the persisted progress value never decreases across successive updates
(streaming updates included); on the timeout-retry path it can decrease
(see the counterexample).  In every run, progress reaches `1.0` iff the
job's status becomes `succeeded`. -/
theorem C3_progress_monotone (env : AnalyticsEnv) :
    (retried env = false → nonDecreasing ((0 : ℚ) :: persistedProgress env) = true) ∧
    ((1 : ℚ) ∈ persistedProgress env ↔ (analyticsFinalJob env).status = "succeeded") := by
  constructor
  · intro hret
    cases hje : env.jobExists with
    | false => simp [persistedProgress, run_analytics_job, hje, nonDecreasing]
    | true =>
      cases hak : env.apiKey with
      | false =>
          have hp : persistedProgress env = [1/100] := by
            simp [persistedProgress, run_analytics_job, hje, hak, analyticsFail]
          rw [hp]; norm_num [nonDecreasing]
      | true =>
        cases hmd : env.metadataErr with
        | some m =>
            have hp : persistedProgress env = [1/100, 1/10] := by
              simp [persistedProgress, run_analytics_job, hje, hak, hmd, stageUpd,
                analyticsFail]
            rw [hp]; norm_num [nonDecreasing]
        | none =>
          cases h1 : env.attempt1.outcome with
          | error msg =>
              have ht : isTimeoutMsg msg = false := by simpa [retried, h1] using hret
              have hp : persistedProgress env =
                  [1/100, 1/10, 3/10] ++
                    List.replicate env.attempt1.streams.length ((7 : ℚ)/20) := by
                simp [persistedProgress, run_analytics_job, hje, hak, hmd, h1, ht, stageUpd,
                  analyticsFail, filterMap_progress_streams]
              rw [hp]
              have hm := nonDecreasing_main_shape env.attempt1.streams.length []
                (by simp [nonDecreasing]) (by simp)
              simpa using hm
          | ok code =>
              simp only [persistedProgress, run_analytics_job, hje, hak, hmd, h1,
                Bool.not_true, ite_true, ite_false]
              refine nonDec_after env code _ 1 [] env.attempt1.streams.length ?_
              simp [filterMap_progress_streams, stageUpd]
  · cases hje : env.jobExists with
    | false =>
        apply iff_of_false
        · simp [persistedProgress, run_analytics_job, hje]
        · have hs : (analyticsFinalJob env).status = "queued" := by
            simp [analyticsFinalJob, run_analytics_job, hje, applyUpdates,
              analyticsInitialJob, create_analytics_job]
          rw [hs]; decide
    | true =>
      cases hak : env.apiKey with
      | false =>
          apply iff_of_false
          · simp [persistedProgress, run_analytics_job, hje, hak, analyticsFail]
          · have hs : (analyticsFinalJob env).status = "failed" := by
              simp [analyticsFinalJob, run_analytics_job, hje, hak, applyUpdates,
                update_analytics_job, analyticsFail, analyticsInitialJob, create_analytics_job]
            rw [hs]; decide
      | true =>
        cases hmd : env.metadataErr with
        | some m =>
            apply iff_of_false
            · simp [persistedProgress, run_analytics_job, hje, hak, hmd, stageUpd,
                analyticsFail]
            · have hs : (analyticsFinalJob env).status = "failed" := by
                simp [analyticsFinalJob, run_analytics_job, hje, hak, hmd, applyUpdates,
                  update_analytics_job, stageUpd, analyticsFail, analyticsInitialJob,
                  create_analytics_job]
              rw [hs]; decide
        | none =>
          cases h1 : env.attempt1.outcome with
          | ok code =>
              simp only [persistedProgress, analyticsFinalJob, run_analytics_job, hje, hak,
                hmd, h1, Bool.not_true, ite_true, ite_false]
              refine afterCodegen_one_mem_iff env code _ 1 [] ?_
              simp [filterMap_progress_streams, stageUpd, List.mem_append,
                List.mem_replicate]
              norm_num
          | error msg =>
              by_cases ht : isTimeoutMsg msg = true
              · cases h2 : env.attempt2.outcome with
                | ok code =>
                    simp only [persistedProgress, analyticsFinalJob, run_analytics_job, hje,
                      hak, hmd, h1, h2, ht, Bool.not_true, ite_true, ite_false]
                    refine afterCodegen_one_mem_iff env code _ 2 [3/2] ?_
                    simp [filterMap_progress_streams, stageUpd, List.mem_append,
                      List.mem_replicate]
                    norm_num
                | error m2 =>
                    apply iff_of_false
                    · simp [persistedProgress, run_analytics_job, hje, hak, hmd, h1, h2, ht,
                        stageUpd, analyticsFail, filterMap_progress_streams,
                        List.mem_append, List.mem_replicate]
                      norm_num
                    · simp only [analyticsFinalJob, run_analytics_job, hje, hak, hmd, h1, h2,
                        ht, Bool.not_true, ite_true, ite_false, not_true, if_true, if_false]
                      rw [applyUpdates_concat, update_job_status_some _ _ "failed" rfl]
                      decide
              · have ht' : isTimeoutMsg msg = false := by
                  cases hb : isTimeoutMsg msg
                  · rfl
                  · exact absurd hb ht
                apply iff_of_false
                · simp [persistedProgress, run_analytics_job, hje, hak, hmd, h1, ht',
                    stageUpd, analyticsFail, filterMap_progress_streams,
                    List.mem_append, List.mem_replicate]
                  norm_num
                · simp only [analyticsFinalJob, run_analytics_job, hje, hak, hmd, h1, ht',
                    Bool.not_true, ite_true, ite_false, Bool.false_eq_true, not_true,
                    if_true, if_false]
                  rw [applyUpdates_concat, update_job_status_some _ _ "failed" rfl]
                  decide

/-- Witness for C3 (amended): a run with one streaming update and no
retry has non-decreasing persisted progress. -/
theorem C3_progress_monotone_witness :
    nonDecreasing ((0 : ℚ) :: persistedProgress
      { jobExists := true, apiKey := true, metadataErr := none,
        attempt1 := ⟨["x"], .ok [.functionDef "analyze" []]⟩,
        attempt2 := ⟨[], .error "unused"⟩,
        modelName := "deepseek-chat", sandboxExit := 0, stdout := "", stderr := "",
        summaryExists := true, analysisContent := "a",
        summarizeResult := none }) = true :=
  (C3_progress_monotone
    { jobExists := true, apiKey := true, metadataErr := none,
      attempt1 := ⟨["x"], .ok [.functionDef "analyze" []]⟩,
      attempt2 := ⟨[], .error "unused"⟩,
      modelName := "deepseek-chat", sandboxExit := 0, stdout := "", stderr := "",
      summaryExists := true, analysisContent := "a",
      summarizeResult := none }).1 rfl

/-! ## Claim C7 -/

theorem dropWhile_eq_self_of_head (p : Char → Bool) (l : Chars)
    (h : ∀ c, l.head? = some c → p c = false) : l.dropWhile p = l := by
  cases l with
  | nil => rfl
  | cons a t =>
      have ha := h a rfl
      simp [List.dropWhile_cons, ha]

theorem stripChars_eq_self (l : Chars)
    (h1 : ∀ c, l.head? = some c → pyWhitespace c = false)
    (h2 : ∀ c, l.getLast? = some c → pyWhitespace c = false) : stripChars l = l := by
  unfold stripChars
  rw [dropWhile_eq_self_of_head _ _ h1]
  rw [dropWhile_eq_self_of_head]
  · exact List.reverse_reverse l
  · intro c hc
    rw [List.head?_reverse] at hc
    exact h2 c hc

theorem mem_of_mem_dropWhile {a : Char} {p : Char → Bool} {l : Chars}
    (h : a ∈ l.dropWhile p) : a ∈ l := by
  induction l with
  | nil => simp at h
  | cons c rest ih =>
      by_cases hc : p c = true
      · rw [List.dropWhile_cons, if_pos hc] at h
        exact List.mem_cons_of_mem _ (ih h)
      · rw [List.dropWhile_cons, if_neg hc] at h
        exact h

/-- Backslash-free text never provides the mandatory literal backslash of
the patterns' `\\s*`. -/
theorem consumeBS_eq_none (ci : Bool) (l : Chars) (h : '\\' ∉ l) :
    consumeBS ci l = none := by
  cases l with
  | nil => rfl
  | cons a rest =>
      have ha : (a == '\\') = false := by
        apply beq_eq_false_iff_ne.mpr
        intro he
        exact h (he ▸ List.mem_cons_self a rest)
      simp [consumeBS, ha]

/-- The analytics `_PY_FENCE_RE` cannot match backslash-free text. -/
theorem analyticsPyFence_eq_none (l : Chars) (h : '\\' ∉ l) :
    analyticsPyFence l = none := by
  induction l with
  | nil => rfl
  | cons a rest ih =>
      have hrest : '\\' ∉ rest := fun hm => h (List.mem_cons_of_mem _ hm)
      have hdrop : consumeBS true ((a :: rest).drop 9) = none :=
        consumeBS_eq_none _ _ (fun hm => h (List.mem_of_mem_drop hm))
      simp only [analyticsPyFence]
      split_ifs with h1
      · rw [hdrop]
        exact ih hrest
      · exact ih hrest

/-- `_ANY_FENCE_RE` cannot match backslash-free text. -/
theorem anyFenceSearch_eq_none (l : Chars) (h : '\\' ∉ l) :
    anyFenceSearch l = none := by
  induction l with
  | nil => rfl
  | cons a rest ih =>
      have hrest : '\\' ∉ rest := fun hm => h (List.mem_cons_of_mem _ hm)
      have hdrop : consumeBS false (((a :: rest).drop 3).dropWhile tagChar) = none :=
        consumeBS_eq_none _ _
          (fun hm => h (List.mem_of_mem_drop (mem_of_mem_dropWhile hm)))
      simp only [anyFenceSearch]
      split_ifs with h1
      · rw [hdrop]
        exact ih hrest
      · exact ih hrest

/-- The excel `_PY_FENCE_RE` cannot match backslash-free text. -/
theorem excelPyFence_eq_none (l : Chars) (h : '\\' ∉ l) :
    excelPyFence l = none := by
  induction l with
  | nil => rfl
  | cons a rest ih =>
      have hrest : '\\' ∉ rest := fun hm => h (List.mem_cons_of_mem _ hm)
      have hd9 : consumeBS false ((a :: rest).drop 9) = none :=
        consumeBS_eq_none _ _ (fun hm => h (List.mem_of_mem_drop hm))
      have hd3 : consumeBS false ((a :: rest).drop 3) = none :=
        consumeBS_eq_none _ _ (fun hm => h (List.mem_of_mem_drop hm))
      simp only [excelPyFence]
      split_ifs with h1 h2
      · rw [hd9]
        exact ih hrest
      · rw [hd3]
        exact ih hrest
      · exact ih hrest

/-- An empty pattern occurs in every text. -/
theorem containsSeq_nil_pat (l : Chars) : containsSeq [] l = true := by
  cases l <;> simp [containsSeq, List.isPrefixOf]

/-- Occurrence of `pat` is preserved by extending the text on the left. -/
theorem containsSeq_append_left (pat pre l : Chars)
    (h : containsSeq pat l = true) : containsSeq pat (pre ++ l) = true := by
  induction pre with
  | nil => simpa using h
  | cons a t ih =>
      rw [List.cons_append]
      simp only [containsSeq, Bool.or_eq_true]
      exact Or.inr ih

/-- Occurrence of `pat` is preserved by extending the text on the right. -/
theorem containsSeq_append_right (pat l suf : Chars)
    (h : containsSeq pat l = true) : containsSeq pat (l ++ suf) = true := by
  induction l with
  | nil =>
      cases pat with
      | nil => exact containsSeq_nil_pat suf
      | cons p ps => simp [containsSeq, List.isPrefixOf] at h
  | cons a t ih =>
      rw [List.cons_append]
      simp only [containsSeq, Bool.or_eq_true] at h ⊢
      rcases h with h | h
      · left
        have hp : pat <+: (a :: t) := List.isPrefixOf_iff_prefix.mp h
        exact List.isPrefixOf_iff_prefix.mpr (hp.trans (List.prefix_append _ _))
      · right
        exact ih h

theorem pySplitAux_ne_nil (l : Chars) : pySplitAux l ≠ [] := by
  cases l with
  | nil => simp [pySplitAux]
  | cons c rest =>
      by_cases hc : c = '\n'
      · simp [pySplitAux, hc]
      · cases hr : pySplitAux rest with
        | nil => simp [pySplitAux, hc, hr]
        | cons s ss => simp [pySplitAux, hc, hr]

/-- Splitting distributes over an inserted newline. -/
theorem pySplitAux_append_newline (l₁ l₂ : Chars) :
    pySplitAux (l₁ ++ '\n' :: l₂) = pySplitAux l₁ ++ pySplitAux l₂ := by
  induction l₁ with
  | nil => simp [pySplitAux]
  | cons c t ih =>
      by_cases hc : c = '\n'
      · subst hc
        rw [List.cons_append]
        simp only [pySplitAux, if_pos rfl, ih]
        rfl
      · rw [List.cons_append]
        simp only [pySplitAux, if_neg hc, ih]
        cases ht : pySplitAux t with
        | nil => exact absurd ht (pySplitAux_ne_nil t)
        | cons s ss => simp

/-- Joining with newlines undoes the newline split. -/
theorem joinNl_pySplitAux (l : Chars) : joinNl (pySplitAux l) = l := by
  induction l with
  | nil => rfl
  | cons c t ih =>
      cases ht : pySplitAux t with
      | nil => exact absurd ht (pySplitAux_ne_nil t)
      | cons s ss =>
          rw [ht] at ih
          by_cases hc : c = '\n'
          · subst hc
            simp only [pySplitAux, if_pos rfl, ht, joinNl]
            rw [ih]
            simp
          · cases ss with
            | nil =>
                simp only [pySplitAux, if_neg hc, ht, joinNl]
                simp only [joinNl] at ih
                rw [ih]
            | cons s2 ss2 =>
                simp only [pySplitAux, if_neg hc, ht, joinNl]
                simp only [joinNl] at ih
                rw [List.cons_append, ih]

/-- The line split of the full fenced reply: tag line, body lines,
closing-fence line. -/
theorem pySplitAux_reply (body : Chars) :
    pySplitAux (fenceTicks ++ pythonTag ++ '\n' :: (body ++ '\n' :: fenceTicks))
      = (fenceTicks ++ pythonTag) :: (pySplitAux body ++ [fenceTicks]) := by
  have h1 : fenceTicks ++ pythonTag ++ '\n' :: (body ++ '\n' :: fenceTicks)
      = (fenceTicks ++ pythonTag) ++ '\n' :: (body ++ '\n' :: fenceTicks) := by
    simp
  rw [h1, pySplitAux_append_newline, pySplitAux_append_newline]
  rw [show pySplitAux (fenceTicks ++ pythonTag) = [fenceTicks ++ pythonTag] from by decide]
  rw [show pySplitAux fenceTicks = [fenceTicks] from by decide]
  simp

end AiOffice
